import Mathlib

/-!
Verification development for the multi-bot Telegram dispatcher repository.

The Python sources under `src/` are shallowly embedded here:
* `MessageRouter.route_text_message` (src/core/message_router.py) as
  `route_text_message` over character lists and an insertion-ordered
  registry of bots;
* `BotManager._handle_text` / `_handle_voice` (src/core/bot_manager.py) as
  `handle_text` / `handle_voice`, with the handler response supplied as a
  parameter (the handler itself is an external collaborator) and the list
  of stats updates performed recorded explicitly;
* `BaseBot.initializeStep` / `BaseBot.shutdown` (src/bots/base_bot.py) as a
  state machine over `BaseBotState`, with ghost counters for executions of
  the subclass hooks `_initialize_bot` / `_shutdown_bot`;
* `Database.update_bot_stats` (src/core/database.py) over a list of stat
  rows;
* `WebAutomation.create_suno_track` (src/services/web_automation.py) with
  the per-attempt outcome supplied by an oracle and a ghost attempt count;
* `AIService.get_text_response` (src/services/ai_service.py) with the
  Python `hash` builtin and the provider call supplied as parameters.
-/

/-- Model of Python `str.lower` / `re.IGNORECASE` folding for the alphabets
that occur in the router patterns: ASCII letters and Russian Cyrillic
(`А`..`Я` and `Ё`). All other characters are left unchanged. -/
def toLowerRu (c : Char) : Char :=
  if 'A' ≤ c ∧ c ≤ 'Z' then Char.ofNat (c.toNat + 32)
  else if 'А' ≤ c ∧ c ≤ 'Я' then Char.ofNat (c.toNat + 32)
  else if c = 'Ё' then 'ё'
  else c

/-- Characters matched by `\s` in the router regexes (ASCII whitespace). -/
def isPySpace (c : Char) : Bool :=
  c == ' ' || c == '\t' || c == '\n' || c == '\r' || c == '\x0b' || c == '\x0c'

/-- Strip a literal lowercase pattern from the front of the text,
case-insensitively (the `re.IGNORECASE` flag on the direct-address
patterns); returns the remaining text on success. -/
def stripLitCI : List Char → List Char → Option (List Char)
  | [], cs => some cs
  | _ :: _, [] => none
  | p :: ps, c :: cs => if toLowerRu c == p then stripLitCI ps cs else none

/-- The `@?` prefix of the direct-address patterns: an optional leading
`@` is consumed. -/
def dropLeadingAt (cs : List Char) : List Char :=
  match cs with
  | c :: rest => if c == '@' then rest else cs
  | [] => []

/-- The `[,:].+` tail of both direct-address patterns: a comma or colon
followed by at least one character (`re.DOTALL`, so any character). -/
def matchTailAfterName (cs : List Char) : Bool :=
  match cs with
  | d :: rest => (d == ',' || d == ':') && !rest.isEmpty
  | [] => false

/-- The pattern literal `главный` of `direct_patterns["main_bot"]`. -/
def glavnyjChars : List Char := ['г', 'л', 'а', 'в', 'н', 'ы', 'й']

/-- The pattern literal `бот` of `direct_patterns["main_bot"]`. -/
def botChars : List Char := ['б', 'о', 'т']

/-- The pattern literal `поэт` of `direct_patterns["poetry_bot"]`. -/
def poetChars : List Char := ['п', 'о', 'э', 'т']

/-- `direct_patterns["main_bot"]`: the regex
`^@?главный\s+бот[,:].+` with `IGNORECASE | DOTALL`, applied with
`re.match` (anchored at the start). -/
def matchMain (text : List Char) : Bool :=
  match stripLitCI glavnyjChars (dropLeadingAt text) with
  | none => false
  | some r1 =>
    match r1 with
    | [] => false
    | c :: _ =>
      if isPySpace c then
        match stripLitCI botChars (r1.dropWhile (fun x => isPySpace x)) with
        | none => false
        | some r3 => matchTailAfterName r3
      else false

/-- `direct_patterns["poetry_bot"]`: the regex `^@?поэт[,:].+` with
`IGNORECASE | DOTALL`, applied with `re.match`. -/
def matchPoet (text : List Char) : Bool :=
  match stripLitCI poetChars (dropLeadingAt text) with
  | none => false
  | some r => matchTailAfterName r

/-- The `poetry_keywords` list of `MessageRouter.__init__`; each entry is a
regex literal searched with `re.search(..., re.IGNORECASE)`. -/
def poetry_keywords : List (List Char) :=
  [['с', 'т', 'и', 'х'], ['п', 'о', 'э', 'м'], ['р', 'и', 'ф', 'м'],
   ['с', 'т', 'р', 'о', 'ф'], ['с', 'о', 'ч', 'и', 'н', 'и'],
   ['н', 'а', 'п', 'и', 'ш', 'и', ' ', 'с', 'т', 'и', 'х'],
   ['м', 'у', 'з', 'ы', 'к'], ['п', 'е', 'с', 'н'], ['т', 'р', 'е', 'к'],
   ['м', 'е', 'л', 'о', 'д', 'и'], ['s', 'u', 'n', 'o']]

/-- Does the pattern occur at the very start of the text? -/
def startsWithChars : List Char → List Char → Bool
  | [], _ => true
  | _ :: _, [] => false
  | p :: ps, c :: cs => p == c && startsWithChars ps cs

/-- Does the pattern occur anywhere in the text (unanchored search)? -/
def containsChars (kw : List Char) (text : List Char) : Bool :=
  match text with
  | [] => startsWithChars kw []
  | _ :: cs => startsWithChars kw text || containsChars kw cs

/-- `any(re.search(keyword, text, re.IGNORECASE) for keyword in
self.poetry_keywords)`: the keyword literals contain no regex
metacharacters, so the search is a case-insensitive substring test. -/
def hasPoetryKeyword (text : List Char) : Bool :=
  poetry_keywords.any (fun kw => containsChars kw (text.map toLowerRu))

/-- A registered bot as the registry sees it: its dictionary key
(`bot.name`, set by `BotManager.register_bot`) and its
`is_initialized` flag (src/bots/base_bot.py line 29). -/
structure BotH where
  name : String
  is_initialized : Bool
deriving DecidableEq, Repr

/-- `bot_name in bots`: key membership in the registry dictionary. -/
def containsName (bots : List BotH) (n : String) : Bool :=
  bots.any (fun b => b.name == n)

/-- `bots[bot_name]` / `BotManager.get_bot`: dictionary lookup (keys are
unique in a Python dict, so the first hit is the entry). -/
def findBot (bots : List BotH) (n : String) : Option BotH :=
  bots.find? (fun b => b.name == n)

/-- `MessageRouter.route_text_message` (src/core/message_router.py):
direct-address patterns are tried in dictionary insertion order
(`main_bot`, then `poetry_bot`); then the poetry-keyword rule; then the
`main_bot` default; then the first registered bot; `None` when the
registry is empty. -/
def route_text_message (text : List Char) (bots : List BotH) : Option BotH :=
  if matchMain text && containsName bots "main_bot" then
    findBot bots "main_bot"
  else if matchPoet text && containsName bots "poetry_bot" then
    findBot bots "poetry_bot"
  else if hasPoetryKeyword text && containsName bots "poetry_bot" then
    findBot bots "poetry_bot"
  else if containsName bots "main_bot" then
    findBot bots "main_bot"
  else
    bots.head?

/-- A handler response to `process_text`: `Optional[str]` in the source;
the handler itself is an external collaborator of the dispatcher. -/
def TextResponse := Option String

/-- A handler response to `process_voice` as `_handle_voice` inspects it:
a plain string, a dict carrying a `voice_path` key, or anything else. -/
inductive VoiceResponse where
  | text (s : String)
  | voiceDict (path : String) (transcript : String)
  | other
deriving DecidableEq, Repr

/-- What the dispatcher sends back on a text message. -/
inductive TReply where
  | sent (s : String)
  | noReply
deriving DecidableEq, Repr

/-- What the dispatcher sends back on a voice message. -/
inductive VReply where
  | sentText (s : String)
  | sentVoice (path : String)
deriving DecidableEq, Repr

/-- One call to `Database.update_bot_stats`: the bot name and the
`success` flag. The dispatcher records every such call it makes. -/
structure StatsCall where
  bot_name : String
  success : Bool
deriving DecidableEq, Repr

/-- Observable outcome of one `BotManager._handle_text` run. -/
structure TextDispatch where
  invoked : Option BotH
  reply : TReply
  statsUpdates : List StatsCall
deriving DecidableEq, Repr

/-- Observable outcome of one `BotManager._handle_voice` run. -/
structure VoiceDispatch where
  routerConsulted : Bool
  invoked : Option BotH
  reply : VReply
  statsUpdates : List StatsCall
deriving DecidableEq, Repr

/-- The fixed no-bot apology of `_handle_text`. -/
def cantProcessMsg : String :=
  "Извините, я не могу обработать ваше сообщение. Попробуйте другой запрос."

/-- The fixed error reply of `_handle_voice` for an unrecognized response. -/
def voiceErrorMsg : String :=
  "Извините, произошла ошибка при обработке голосового сообщения."

/-- The fixed unavailable-service reply of `_handle_voice` when `main_bot`
is not registered. -/
def voiceUnavailableMsg : String :=
  "Извините, обработка голосовых сообщений временно недоступна."

/-- `BotManager._handle_text` (src/core/bot_manager.py lines 112-135):
route, invoke the selected bot, send its non-null response; on `None`
from the router fall back to `main_bot`, else send the fixed apology.
`resp` stands for the value the invoked handler's `process_text` returns.
The body performs no call to `Database.update_bot_stats`, so the recorded
stats-update list is empty in every branch. -/
def handle_text (text : List Char) (bots : List BotH) (resp : TextResponse) :
    TextDispatch :=
  match route_text_message text bots with
  | some b =>
    { invoked := some b
      reply := match resp with | some s => .sent s | none => .noReply
      statsUpdates := [] }
  | none =>
    match findBot bots "main_bot" with
    | some mb =>
      { invoked := some mb
        reply := match resp with | some s => .sent s | none => .noReply
        statsUpdates := [] }
    | none =>
      { invoked := none, reply := .sent cantProcessMsg, statsUpdates := [] }

/-- `BotManager._handle_voice` (src/core/bot_manager.py lines 137-168):
voice messages go to `get_bot("main_bot")` directly — the body contains no
call to the router — and the response is sent as text, as a voice file, or
as the fixed error reply; when `main_bot` is absent the fixed
unavailable-service reply is sent and no handler is invoked. The body
performs no call to `Database.update_bot_stats`. -/
def handle_voice (bots : List BotH) (resp : VoiceResponse) : VoiceDispatch :=
  match findBot bots "main_bot" with
  | some mb =>
    { routerConsulted := false
      invoked := some mb
      reply :=
        match resp with
        | .text s => .sentText s
        | .voiceDict p _ => .sentVoice p
        | .other => .sentText voiceErrorMsg
      statsUpdates := [] }
  | none =>
    { routerConsulted := false
      invoked := none
      reply := .sentText voiceUnavailableMsg
      statsUpdates := [] }

/-- Mutable lifecycle state of a `BaseBot` instance
(src/bots/base_bot.py): the `is_initialized` flag, plus ghost counters for
how many times the subclass hooks `_initialize_bot` and `_shutdown_bot`
have been executed (they allocate and release resources). -/
structure BaseBotState where
  is_initialized : Bool
  init_runs : Nat
  shutdown_runs : Nat
deriving DecidableEq, Repr

/-- `BaseBot.initializeStep` (src/bots/base_bot.py lines 41-49): when already
initialized, log a warning (returned flag) and do nothing; otherwise run
`_initialize_bot` and set the flag. It never raises. -/
def BaseBot.initializeStep (b : BaseBotState) : BaseBotState × Bool :=
  if b.is_initialized then
    (b, true)
  else
    ({ b with is_initialized := true, init_runs := b.init_runs + 1 }, false)

/-- `BaseBot.shutdown` (src/bots/base_bot.py lines 51-59): when not
initialized, log a warning and do nothing; otherwise run `_shutdown_bot`
and clear the flag. It never raises. -/
def BaseBot.shutdown (b : BaseBotState) : BaseBotState × Bool :=
  if !b.is_initialized then
    (b, true)
  else
    ({ b with is_initialized := false, shutdown_runs := b.shutdown_runs + 1 }, false)

/-- One row of the `bot_stats` table (src/core/database.py). -/
structure StatEntry where
  bot_name : String
  request_count : Nat
  success_count : Nat
  error_count : Nat
deriving DecidableEq, Repr

/-- `Database.update_bot_stats` (src/core/database.py lines 178-234): if a
row for the bot exists, the SQL `UPDATE ... WHERE bot_name = ?` bumps
`request_count` and one of `success_count` / `error_count` on every
matching row; otherwise a fresh row `(1, 1, 0)` or `(1, 0, 1)` is
inserted. -/
def update_bot_stats (table : List StatEntry) (name : String) (success : Bool) :
    List StatEntry :=
  if table.any (fun e => e.bot_name == name) then
    table.map (fun e =>
      if e.bot_name == name then
        { e with
          request_count := e.request_count + 1
          success_count := e.success_count + (if success then 1 else 0)
          error_count := e.error_count + (if success then 0 else 1) }
      else e)
  else
    table ++ [{ bot_name := name
                request_count := 1
                success_count := if success then 1 else 0
                error_count := if success then 0 else 1 }]

/-- Outcome of one browser attempt inside the `try` block of
`WebAutomation.create_suno_track`: a track URL, a caught soft failure that
returns `None` without retrying (failed login, or `_wait_for_track_creation`
returning `None`), or an exception reaching the `except` clause. -/
inductive AttemptOutcome where
  | success (url : String)
  | softFail
  | exnRaised
deriving DecidableEq, Repr

/-- `WebAutomation.create_suno_track` (src/services/web_automation.py
lines 89-156): the oracle gives the outcome of the attempt with each
index; on an exception the code retries itself with `max_retries - 1`
while `max_retries > 0`, else returns `None`. The second component is a
ghost count of attempts performed. -/
def create_suno_track (oracle : Nat → AttemptOutcome) :
    Nat → Nat → Option String × Nat
  | idx, 0 =>
    match oracle idx with
    | .success url => (some url, 1)
    | .softFail => (none, 1)
    | .exnRaised => (none, 1)
  | idx, n + 1 =>
    match oracle idx with
    | .success url => (some url, 1)
    | .softFail => (none, 1)
    | .exnRaised =>
      let r := create_suno_track oracle (idx + 1) n
      (r.1, r.2 + 1)

/-- The error reply of `AIService.get_text_response` when the provider
call raises. -/
def aiErrorMsg : String :=
  "Извините, произошла ошибка при обработке вашего запроса. Попробуйте позже."

/-- Outcome of the provider call inside `get_text_response` (OpenAI,
local model, or mock — external collaborators). -/
inductive ProviderResult where
  | ok (s : String)
  | exnRaised
deriving DecidableEq, Repr

/-- State of an `AIService` instance: the `response_cache` dict as an
insertion-ordered association list. -/
structure AIState where
  response_cache : List (String × String)
deriving DecidableEq, Repr

/-- The cache key built by `get_text_response`:
`"text_" + str(hash(text))`, with the Python `hash` builtin supplied as a
parameter. -/
def textCacheKey (pyHash : List Char → Int) (text : List Char) : String :=
  "text_" ++ toString (pyHash text)

/-- `AIService.get_text_response` (src/services/ai_service.py lines
106-142): the cache key depends only on `hash(text)`; on a hit the cached
reply is returned unchanged with no provider call; on a miss the provider
result is cached and returned, and a raised exception yields the fixed
error reply without caching. Returns (reply, new state, provider
contacted). -/
def get_text_response (pyHash : List Char → Int) (st : AIState)
    (user_id : Int) (text : List Char) (provider : ProviderResult) :
    String × AIState × Bool :=
  match st.response_cache.find? (fun p => p.1 == textCacheKey pyHash text) with
  | some p => (p.2, st, false)
  | none =>
    match provider with
    | .ok r => (r, ⟨st.response_cache ++ [(textCacheKey pyHash text, r)]⟩, true)
    | .exnRaised => (aiErrorMsg, st, true)

/-- `b` with its `is_initialized` flag cleared; name unchanged. -/
def markUninit (b : BotH) : BotH := ⟨b.name, false⟩

/-- Concrete text `привет` (no pattern, no keyword). -/
def privetChars : List Char := ['п', 'р', 'и', 'в', 'е', 'т']

/-- Concrete direct address to the poetry bot that also contains the
keyword `стих`. -/
def poetStihChars : List Char :=
  ['П', 'о', 'э', 'т', ':', ' ', 'с', 'т', 'и', 'х']

/-- Concrete text consisting of the keyword `стих` alone. -/
def stihChars : List Char := ['с', 'т', 'и', 'х']

/-- Registry holding only an initialized `main_bot`. -/
def mainOnly : List BotH := [⟨"main_bot", true⟩]

/-- Registry holding only an initialized `poetry_bot`. -/
def poetryOnly : List BotH := [⟨"poetry_bot", true⟩]

/-- Registry holding `main_bot` and `poetry_bot`, both initialized. -/
def twoBots : List BotH := [⟨"main_bot", true⟩, ⟨"poetry_bot", true⟩]

/-- Oracle under which every browser attempt raises. -/
def allExn : Nat → AttemptOutcome := fun _ => .exnRaised

/-- A Python `hash` stand-in that sends every text to `0`. -/
def constHash : List Char → Int := fun _ => 0

/-- An `AIService` state whose cache already holds the key `"text_0"`. -/
def cachedState : AIState := ⟨[("text_0", "cached")]⟩

lemma stripLitCI_head {p : Char} {ps cs r : List Char}
    (h : stripLitCI (p :: ps) cs = some r) :
    ∃ c cs2, cs = c :: cs2 ∧ toLowerRu c = p := by
  cases cs with
  | nil => simp [stripLitCI] at h
  | cons c cs2 =>
    refine ⟨c, cs2, rfl, ?_⟩
    by_cases hc : toLowerRu c == p
    · exact eq_of_beq hc
    · simp [stripLitCI, hc] at h

lemma matchPoet_not_matchMain {t : List Char} (h : matchPoet t = true) :
    matchMain t = false := by
  unfold matchPoet at h
  cases hs : stripLitCI poetChars (dropLeadingAt t) with
  | none => rw [hs] at h; simp at h
  | some r =>
    have hs2 : stripLitCI ('п' :: ['о', 'э', 'т']) (dropLeadingAt t) = some r := hs
    obtain ⟨c, cs2, hcs, hc⟩ := stripLitCI_head hs2
    unfold matchMain
    cases hm : stripLitCI glavnyjChars (dropLeadingAt t) with
    | none => rfl
    | some r1 =>
      have hm2 : stripLitCI ('г' :: ['л', 'а', 'в', 'н', 'ы', 'й']) (dropLeadingAt t) = some r1 := hm
      obtain ⟨c2, cs3, hcs2, hc2⟩ := stripLitCI_head hm2
      rw [hcs] at hcs2
      injection hcs2 with h1 _
      rw [← h1, hc] at hc2
      exact absurd hc2 (by decide)

lemma containsName_findBot {bots : List BotH} {n : String}
    (h : containsName bots n = true) :
    ∃ b, findBot bots n = some b ∧ b.name = n := by
  induction bots with
  | nil => simp [containsName] at h
  | cons b bs ih =>
    by_cases hb : b.name == n
    · exact ⟨b, by simp [findBot, List.find?, hb], by simpa using hb⟩
    · have h2 : containsName bs n = true := by
        simp only [containsName, List.any_cons, hb, Bool.false_or] at h
        exact h
      obtain ⟨b2, hf, hn⟩ := ih h2
      exact ⟨b2, by simp only [findBot, List.find?, hb]; exact hf, hn⟩

lemma findBot_name {bots : List BotH} {n : String} {b : BotH}
    (h : findBot bots n = some b) : b.name = n := by
  induction bots with
  | nil => simp [findBot, List.find?] at h
  | cons x xs ih =>
    by_cases hx : x.name == n
    · simp only [findBot, List.find?, hx] at h
      cases h
      exact eq_of_beq hx
    · simp only [findBot, List.find?, hx] at h
      exact ih h

/-- Claim C2: a text matching a direct-address pattern for a registered
handler H is routed to H by `route_text_message`, regardless of any
creative keywords the text contains — direct address has priority. -/
theorem c2_direct_address_priority (text : List Char) (bots : List BotH) :
    (matchMain text = true → containsName bots "main_bot" = true →
      ∃ b, route_text_message text bots = some b ∧ b.name = "main_bot") ∧
    (matchPoet text = true → containsName bots "poetry_bot" = true →
      ∃ b, route_text_message text bots = some b ∧ b.name = "poetry_bot") := by
  constructor
  · intro hm hc
    obtain ⟨b, hf, hn⟩ := containsName_findBot hc
    refine ⟨b, ?_, hn⟩
    unfold route_text_message
    simp [hm, hc, hf]
  · intro hp hc
    have hm := matchPoet_not_matchMain hp
    obtain ⟨b, hf, hn⟩ := containsName_findBot hc
    refine ⟨b, ?_, hn⟩
    unfold route_text_message
    simp [hm, hp, hc, hf]

theorem c2_witness :
    matchPoet poetStihChars = true ∧
    hasPoetryKeyword poetStihChars = true ∧
    containsName twoBots "poetry_bot" = true ∧
    ∃ b, route_text_message poetStihChars twoBots = some b ∧
      b.name = "poetry_bot" :=
  ⟨by decide, by decide, by decide,
    (c2_direct_address_priority poetStihChars twoBots).2 (by decide) (by decide)⟩

/-- Claim C3: a text containing a creative keyword and matching no
direct-address pattern is routed to `poetry_bot` when registered; when
`poetry_bot` is absent, selection falls through to the default/general
rule (the `main_bot` default, then the first-registered fallback). -/
theorem c3_keyword_rule (text : List Char) (bots : List BotH)
    (hm : matchMain text = false) (hp : matchPoet text = false)
    (hk : hasPoetryKeyword text = true) :
    (containsName bots "poetry_bot" = true →
      ∃ b, route_text_message text bots = some b ∧ b.name = "poetry_bot") ∧
    (containsName bots "poetry_bot" = false →
      route_text_message text bots =
        (if containsName bots "main_bot" then findBot bots "main_bot"
         else bots.head?)) := by
  constructor
  · intro hc
    obtain ⟨b, hf, hn⟩ := containsName_findBot hc
    refine ⟨b, ?_, hn⟩
    unfold route_text_message
    simp [hm, hp, hk, hc, hf]
  · intro hc
    unfold route_text_message
    simp [hm, hp, hk, hc]

theorem c3_witness :
    matchMain stihChars = false ∧ matchPoet stihChars = false ∧
    hasPoetryKeyword stihChars = true ∧
    containsName poetryOnly "poetry_bot" = true ∧
    ∃ b, route_text_message stihChars poetryOnly = some b ∧
      b.name = "poetry_bot" :=
  ⟨by decide, by decide, by decide, by decide,
    (c3_keyword_rule stihChars poetryOnly (by decide) (by decide)
      (by decide)).1 (by decide)⟩

/-- Claim C4: on a text matching neither a direct-address pattern nor a
creative keyword, `route_text_message` returns `main_bot` when registered,
else the first registered handler in iteration order, and returns `none`
exactly when the registry is empty. -/
theorem c4_default_and_fallback (text : List Char) (bots : List BotH)
    (hm : matchMain text = false) (hp : matchPoet text = false)
    (hk : hasPoetryKeyword text = false) :
    (containsName bots "main_bot" = true →
      ∃ b, route_text_message text bots = some b ∧ b.name = "main_bot") ∧
    (containsName bots "main_bot" = false →
      route_text_message text bots = bots.head?) ∧
    (route_text_message text bots = none ↔ bots = []) := by
  have hroute : route_text_message text bots =
      (if containsName bots "main_bot" then findBot bots "main_bot"
       else bots.head?) := by
    unfold route_text_message
    simp [hm, hp, hk]
  refine ⟨?_, ?_, ?_⟩
  · intro hc
    obtain ⟨b, hf, hn⟩ := containsName_findBot hc
    exact ⟨b, by rw [hroute]; simp [hc, hf], hn⟩
  · intro hc
    rw [hroute]
    simp [hc]
  · rw [hroute]
    by_cases hc : containsName bots "main_bot" = true
    · obtain ⟨b, hf, hn⟩ := containsName_findBot hc
      cases bots with
      | nil => simp [containsName] at hc
      | cons x xs => simp [hc, hf]
    · rw [if_neg hc]
      cases bots <;> simp

theorem c4_witness :
    matchMain privetChars = false ∧ matchPoet privetChars = false ∧
    hasPoetryKeyword privetChars = false ∧
    containsName mainOnly "main_bot" = true ∧
    (∃ b, route_text_message privetChars mainOnly = some b ∧
      b.name = "main_bot") ∧
    (route_text_message privetChars mainOnly = none ↔ mainOnly = []) :=
  ⟨by decide, by decide, by decide, by decide,
    (c4_default_and_fallback privetChars mainOnly (by decide) (by decide)
      (by decide)).1 (by decide),
    (c4_default_and_fallback privetChars mainOnly (by decide) (by decide)
      (by decide)).2.2⟩

/-- Claim C1 as stated is false: on a text message that reaches a handler
call (`main_bot` is selected and invoked), the dispatcher performs zero
stats updates, not exactly one — `Database.update_bot_stats` is never
called from `_handle_text`. -/
theorem c1_counterexample :
    (handle_text privetChars mainOnly (some "ok")).invoked ≠ none ∧
    (handle_text privetChars mainOnly (some "ok")).statsUpdates.length ≠ 1 := by
  decide

/-- Claim C1 (amended): for every text or voice message processed by the
dispatcher — whether or not a handler call is reached — no stats record
update is made: the dispatcher never invokes `Database.update_bot_stats`. -/
theorem c1_no_stats_update (text : List Char) (bots : List BotH)
    (resp : TextResponse) (vresp : VoiceResponse) :
    (handle_text text bots resp).statsUpdates = [] ∧
    (handle_voice bots vresp).statsUpdates = [] := by
  constructor
  · unfold handle_text
    cases route_text_message text bots with
    | some b => rfl
    | none =>
      cases findBot bots "main_bot" with
      | some mb => rfl
      | none => rfl
  · unfold handle_voice
    cases findBot bots "main_bot" with
    | some mb => rfl
    | none => rfl

/-- Claim C5: `_handle_voice` targets `main_bot` directly — the router is
never consulted, the choice is independent of the message content, and
when `main_bot` is absent the fixed unavailable-service reply is sent with
no handler invoked. -/
theorem c5_voice_hardwired (bots : List BotH) (resp resp2 : VoiceResponse) :
    (handle_voice bots resp).routerConsulted = false ∧
    (handle_voice bots resp).invoked = (handle_voice bots resp2).invoked ∧
    (∀ b, findBot bots "main_bot" = some b →
      (handle_voice bots resp).invoked = some b ∧ b.name = "main_bot") ∧
    (findBot bots "main_bot" = none →
      (handle_voice bots resp).invoked = none ∧
      (handle_voice bots resp).reply = .sentText voiceUnavailableMsg) := by
  unfold handle_voice
  cases h : findBot bots "main_bot" with
  | some mb =>
    refine ⟨rfl, rfl, ?_, ?_⟩
    · intro b hb
      injection hb with hb2
      subst hb2
      exact ⟨rfl, findBot_name h⟩
    · intro hb
      exact Option.noConfusion hb
  | none =>
    refine ⟨rfl, rfl, ?_, ?_⟩
    · intro b hb
      exact Option.noConfusion hb
    · intro _
      exact ⟨rfl, rfl⟩

theorem c5_witness :
    findBot mainOnly "main_bot" = some ⟨"main_bot", true⟩ ∧
    (handle_voice mainOnly .other).invoked = some ⟨"main_bot", true⟩ ∧
    (handle_voice [] .other).invoked = none :=
  ⟨by decide,
    ((c5_voice_hardwired mainOnly .other .other).2.2.1 ⟨"main_bot", true⟩
      (by decide)).1,
    ((c5_voice_hardwired [] .other .other).2.2.2 (by decide)).1⟩

/-- Claim C6: from the uninitialized state, calling `initialize` twice
leaves the handler in exactly the state one call produces; the second call
runs `_initialize_bot` zero further times and only reports a warning. -/
theorem c6_initialize_idempotent (s : BaseBotState)
    (h : s.is_initialized = false) :
    (BaseBot.initializeStep (BaseBot.initializeStep s).1).1 = (BaseBot.initializeStep s).1 ∧
    (BaseBot.initializeStep (BaseBot.initializeStep s).1).1.init_runs =
      (BaseBot.initializeStep s).1.init_runs ∧
    (BaseBot.initializeStep (BaseBot.initializeStep s).1).2 = true := by
  unfold BaseBot.initializeStep
  simp [h]

theorem c6_witness :
    (⟨false, 0, 0⟩ : BaseBotState).is_initialized = false ∧
    (BaseBot.initializeStep (BaseBot.initializeStep ⟨false, 0, 0⟩).1).1 =
      (BaseBot.initializeStep ⟨false, 0, 0⟩).1 ∧
    (BaseBot.initializeStep (BaseBot.initializeStep ⟨false, 0, 0⟩).1).2 = true :=
  ⟨rfl, (c6_initialize_idempotent ⟨false, 0, 0⟩ rfl).1,
    (c6_initialize_idempotent ⟨false, 0, 0⟩ rfl).2.2⟩

/-- Claim C7 as stated is false: the sequence initialize, shutdown,
initialize on one instance ends with `is_initialized = true` and a second
execution of `_initialize_bot` — the code does return a handler from the
shut-down state to the initialized state. -/
theorem c7_counterexample :
    ((BaseBot.initializeStep
        ((BaseBot.shutdown
          ((BaseBot.initializeStep (⟨false, 0, 0⟩ : BaseBotState)).1)).1)).1).is_initialized
      = true ∧
    ((BaseBot.initializeStep
        ((BaseBot.shutdown
          ((BaseBot.initializeStep (⟨false, 0, 0⟩ : BaseBotState)).1)).1)).1).init_runs
      = 2 := by
  decide

/-- Claim C7 (amended): after `shutdown()` the handler is back in the
uninitialized state, and calling `initialize()` on the same instance does
re-initialize it — `_initialize_bot` runs once more and the handler
returns to the initialized state; no new instance is required. -/
theorem c7_shutdown_then_reinit (s : BaseBotState)
    (h : s.is_initialized = true) :
    (BaseBot.shutdown s).1.is_initialized = false ∧
    (BaseBot.initializeStep (BaseBot.shutdown s).1).1.is_initialized = true ∧
    (BaseBot.initializeStep (BaseBot.shutdown s).1).1.init_runs =
      s.init_runs + 1 := by
  unfold BaseBot.shutdown BaseBot.initializeStep
  simp [h]

theorem c7_witness :
    (⟨true, 1, 0⟩ : BaseBotState).is_initialized = true ∧
    (BaseBot.shutdown (⟨true, 1, 0⟩ : BaseBotState)).1.is_initialized = false ∧
    (BaseBot.initializeStep
      (BaseBot.shutdown (⟨true, 1, 0⟩ : BaseBotState)).1).1.init_runs = 2 :=
  ⟨rfl, (c7_shutdown_then_reinit ⟨true, 1, 0⟩ rfl).1,
    (c7_shutdown_then_reinit ⟨true, 1, 0⟩ rfl).2.2⟩

/-- Claim C8 as stated is false: with `main_bot` registered but not
initialized, `_handle_voice` still invokes its `process_voice` — the
dispatcher never checks `is_initialized` and prevents nothing. -/
theorem c8_counterexample :
    (handle_voice [⟨"main_bot", false⟩] .other).invoked =
      some ⟨"main_bot", false⟩ ∧
    (⟨"main_bot", false⟩ : BotH).is_initialized = false := by
  decide

lemma containsName_map_markUninit (bots : List BotH) (n : String) :
    containsName (bots.map markUninit) n = containsName bots n := by
  induction bots with
  | nil => rfl
  | cons x xs ih =>
    simp only [containsName, List.map_cons, List.any_cons, markUninit] at ih ⊢
    rw [ih]

lemma findBot_map_markUninit (bots : List BotH) (n : String) :
    findBot (bots.map markUninit) n = (findBot bots n).map markUninit := by
  induction bots with
  | nil => rfl
  | cons x xs ih =>
    by_cases hx : x.name == n
    · simp [findBot, List.find?, markUninit, hx]
    · simp only [findBot, List.map_cons, List.find?, markUninit, hx] at ih ⊢
      exact ih

lemma route_map_markUninit (t : List Char) (bots : List BotH) :
    route_text_message t (bots.map markUninit) =
      (route_text_message t bots).map markUninit := by
  unfold route_text_message
  simp only [containsName_map_markUninit, findBot_map_markUninit]
  split_ifs <;> first
    | rfl
    | (cases bots <;> simp [markUninit])

/-- Claim C8 (amended): the dispatcher makes no initialization check —
which handler is invoked is fully determined by the registry names and is
unchanged if every handler's `is_initialized` flag is cleared; in
particular an uninitialized `main_bot` still receives the
`process_voice` call, and no `HandlerNotInitialized` guard or substitute
apology exists in the code. -/
theorem c8_no_init_check (text : List Char) (bots : List BotH)
    (tresp : TextResponse) (vresp : VoiceResponse) :
    ((handle_voice (bots.map markUninit) vresp).invoked.map BotH.name =
      (handle_voice bots vresp).invoked.map BotH.name) ∧
    ((handle_text text (bots.map markUninit) tresp).invoked.map BotH.name =
      (handle_text text bots tresp).invoked.map BotH.name) ∧
    (∀ b, findBot bots "main_bot" = some b → b.is_initialized = false →
      (handle_voice bots vresp).invoked = some b) := by
  refine ⟨?_, ?_, ?_⟩
  · unfold handle_voice
    rw [findBot_map_markUninit]
    cases findBot bots "main_bot" with
    | some mb => simp [markUninit]
    | none => rfl
  · unfold handle_text
    rw [route_map_markUninit, findBot_map_markUninit]
    cases route_text_message text bots with
    | some b => simp [markUninit]
    | none =>
      cases findBot bots "main_bot" with
      | some mb => simp [markUninit]
      | none => rfl
  · intro b hb _
    unfold handle_voice
    rw [hb]

theorem c8_witness :
    findBot [⟨"main_bot", false⟩] "main_bot" = some ⟨"main_bot", false⟩ ∧
    (handle_voice [⟨"main_bot", false⟩] .other).invoked =
      some ⟨"main_bot", false⟩ :=
  ⟨by decide,
    (c8_no_init_check [] [⟨"main_bot", false⟩] none .other).2.2
      ⟨"main_bot", false⟩ (by decide) (by decide)⟩

/-- Claim C9: `create_suno_track` performs at most `max_retries + 1`
attempts; an attempt that raises retries immediately with the budget
decremented by one; and with the budget exhausted by failures the call
returns `None` to the caller instead of raising. -/
theorem c9_bounded_retries (oracle : Nat → AttemptOutcome) (idx n : Nat) :
    ((create_suno_track oracle idx n).2 ≤ n + 1) ∧
    (∀ m, n = m + 1 → oracle idx = .exnRaised →
      create_suno_track oracle idx n =
        ((create_suno_track oracle (idx + 1) m).1,
         (create_suno_track oracle (idx + 1) m).2 + 1)) ∧
    ((∀ k, oracle k = .exnRaised) →
      create_suno_track oracle idx n = (none, n + 1)) := by
  induction n generalizing idx with
  | zero =>
    refine ⟨?_, ?_, ?_⟩
    · cases h : oracle idx <;> simp [create_suno_track, h]
    · intro m hm
      cases hm
    · intro hall
      simp [create_suno_track, hall idx]
  | succ k ih =>
    refine ⟨?_, ?_, ?_⟩
    · cases h : oracle idx with
      | success url => simp [create_suno_track, h]
      | softFail => simp [create_suno_track, h]
      | exnRaised =>
        have hb := (ih (idx + 1)).1
        simp only [create_suno_track, h]
        omega
    · intro m hm hx
      injection hm with hm2
      subst hm2
      simp [create_suno_track, hx]
    · intro hall
      have ihe := (ih (idx + 1)).2.2 hall
      simp [create_suno_track, hall idx, ihe]

theorem c9_witness :
    (create_suno_track allExn 0 3).2 ≤ 4 ∧
    create_suno_track allExn 0 3 =
      ((create_suno_track allExn 1 2).1, (create_suno_track allExn 1 2).2 + 1) ∧
    create_suno_track allExn 0 3 = (none, 4) :=
  ⟨(c9_bounded_retries allExn 0 3).1,
    (c9_bounded_retries allExn 0 3).2.1 2 rfl rfl,
    (c9_bounded_retries allExn 0 3).2.2 (fun _ => rfl)⟩

/-- Claim C10: the response cache of `get_text_response` is keyed only by
`hash(text)`: once a response for a text is cached, every later call with
that text returns the identical cached reply for any user, the state is
unchanged, and no provider is contacted — replies for the same text are
shared across users. -/
theorem c10_cache_ignores_user (pyHash : List Char → Int) (st : AIState)
    (u1 u2 : Int) (text : List Char) (prov1 prov2 : ProviderResult)
    (v : String × String)
    (h : st.response_cache.find? (fun p => p.1 == textCacheKey pyHash text) =
      some v) :
    get_text_response pyHash st u1 text prov1 = (v.2, st, false) ∧
    get_text_response pyHash st u1 text prov1 =
      get_text_response pyHash st u2 text prov2 := by
  unfold get_text_response
  rw [h]
  exact ⟨rfl, rfl⟩

theorem c10_witness :
    cachedState.response_cache.find?
      (fun p => p.1 == textCacheKey constHash ['h', 'i']) =
      some ("text_0", "cached") ∧
    get_text_response constHash cachedState 1 ['h', 'i'] (.ok "fresh") =
      ("cached", cachedState, false) ∧
    get_text_response constHash cachedState 1 ['h', 'i'] (.ok "fresh") =
      get_text_response constHash cachedState 2 ['h', 'i'] .exnRaised :=
  ⟨by decide,
    (c10_cache_ignores_user constHash cachedState 1 2 ['h', 'i'] (.ok "fresh")
      .exnRaised ("text_0", "cached") (by decide)).1,
    (c10_cache_ignores_user constHash cachedState 1 2 ['h', 'i'] (.ok "fresh")
      .exnRaised ("text_0", "cached") (by decide)).2⟩
